import Mathlib

/-!
Verification of the SXA backend scoring and persistence core
(src/backend.js) against its natural-language specification.

JavaScript numbers are modelled as rationals, JS object fields that may
be absent as Option, and Math.round as floor of x + 1/2 (round half
toward positive infinity), which matches JS Math.round on the
non-negative values produced by the scoring path.
-/

namespace SXA

/-- Weight vector of a sport pattern.  Each field models the JS object
entry for that dimension; a missing key is `none`. -/
structure Weights where
  form : Option ℚ
  power : Option ℚ
  consistency : Option ℚ
  balance : Option ℚ
  timing : Option ℚ

deriving instance DecidableEq for Weights

/-- The five per-dimension raw scores (each intended to lie in [0,100]). -/
structure RawScores where
  form : ℚ
  power : ℚ
  consistency : ℚ
  balance : ℚ
  timing : ℚ

deriving instance DecidableEq for RawScores

/-- Auxiliary measurements consumed by the insight rules. -/
structure Metrics where
  kneeAngle : ℚ
  hipAngle : ℚ
  armAngle : ℚ
  speedIndex : String
  balance : ℚ

deriving instance DecidableEq for Metrics

/-- One entry of the sport registry: display name plus weight vector. -/
structure SportPattern where
  name : String
  weights : Weights

deriving instance DecidableEq for SportPattern

/-- The `running` entry (distance-running profile), the designated
default of the registry. -/
def runningPattern : SportPattern :=
  ⟨"Distance Running", ⟨some 0.25, some 0.20, some 0.30, some 0.15, some 0.10⟩⟩

/-- The sport registry from src/backend.js, lines 128-141. -/
def SPORT_PATTERNS : List (String × SportPattern) := [
  ("long-jump",  ⟨"Long Jump",           ⟨some 0.30, some 0.20, some 0.20, some 0.15, some 0.15⟩⟩),
  ("high-jump",  ⟨"High Jump",           ⟨some 0.35, some 0.20, some 0.18, some 0.12, some 0.15⟩⟩),
  ("sprinting",  ⟨"Sprinting",           ⟨some 0.25, some 0.25, some 0.25, some 0.10, some 0.15⟩⟩),
  ("basketball", ⟨"Basketball Shooting", ⟨some 0.35, some 0.15, some 0.25, some 0.15, some 0.10⟩⟩),
  ("soccer",     ⟨"Soccer Kicking",      ⟨some 0.30, some 0.20, some 0.20, some 0.15, some 0.15⟩⟩),
  ("tennis",     ⟨"Tennis Serve",        ⟨some 0.32, some 0.18, some 0.22, some 0.13, some 0.15⟩⟩),
  ("running",    runningPattern),
  ("golf",       ⟨"Golf Swing",          ⟨some 0.35, some 0.20, some 0.25, some 0.12, some 0.08⟩⟩),
  ("yoga",       ⟨"Yoga",                ⟨some 0.40, some 0.05, some 0.20, some 0.30, some 0.05⟩⟩),
  ("jumping",    ⟨"Jump Training",       ⟨some 0.25, some 0.35, some 0.20, some 0.12, some 0.08⟩⟩),
  ("swimming",   ⟨"Swimming",            ⟨some 0.35, some 0.20, some 0.25, some 0.10, some 0.10⟩⟩),
  ("cycling",    ⟨"Cycling",             ⟨some 0.30, some 0.25, some 0.25, some 0.12, some 0.08⟩⟩)]

/-- Registry lookup: `SPORT_PATTERNS[sportKey] || SPORT_PATTERNS.running`
(src/backend.js line 149).  Total: unknown keys fall back to running. -/
def lookupPattern (sportKey : String) : SportPattern :=
  match SPORT_PATTERNS.find? (fun e => e.1 == sportKey) with
  | some e => e.2
  | none => runningPattern

/-- Weight resolution `weights[k] || 0.2` (src/backend.js line 162):
a missing entry, and also an entry equal to 0 (JS falsy), yields 0.2. -/
def resolveW (o : Option ℚ) : ℚ :=
  match o with
  | some w => if w = 0 then 0.2 else w
  | none => 0.2

/-- JS Math.round for the non-negative sums produced here:
floor of x + 1/2. -/
def jsRound (x : ℚ) : ℤ := ⌊x + 1/2⌋

/-- The clamp `Math.min(100, Math.max(0, overall))`
(src/backend.js line 178). -/
def clampScore (z : ℤ) : ℤ := min 100 (max 0 z)

/-- The reduce over Object.entries(rawScores) at src/backend.js
lines 161-163, with the weight resolution of line 162. -/
def weightedSum (w : Weights) (r : RawScores) : ℚ :=
  r.form * resolveW w.form + r.power * resolveW w.power +
    r.consistency * resolveW w.consistency + r.balance * resolveW w.balance +
    r.timing * resolveW w.timing

/-- The full scoring path for a given weight vector: weighted sum,
Math.round, clamp. -/
def computeOverallW (w : Weights) (r : RawScores) : ℤ :=
  clampScore (jsRound (weightedSum w r))

/-- The scoring path of analyzeVideo as a function of the sport key and
the raw scores (the random raw-score generation of lines 153-159 is
replaced by the `r` parameter). -/
def computeOverall (sportKey : String) (r : RawScores) : ℤ :=
  computeOverallW (lookupPattern sportKey).weights r

/-- Weight resolution as the specification words it: a dimension missing
from the weight vector contributes with weight 0.2; a present entry is
used as is. -/
def specWeight (o : Option ℚ) : ℚ := o.getD 0.2

/-- The overall score as the specification words it: round the sum over
the five dimensions of raw score times resolved weight, then clamp. -/
def specOverall (sportKey : String) (r : RawScores) : ℤ :=
  let w := (lookupPattern sportKey).weights
  clampScore (jsRound (r.form * specWeight w.form + r.power * specWeight w.power +
    r.consistency * specWeight w.consistency + r.balance * specWeight w.balance +
    r.timing * specWeight w.timing))

example : lookupPattern "badminton" = runningPattern := rfl
example : computeOverall "sprinting" ⟨90, 90, 90, 90, 90⟩ = 90 := by
  have h : lookupPattern "sprinting" =
      ⟨"Sprinting", ⟨some 0.25, some 0.25, some 0.25, some 0.10, some 0.15⟩⟩ := rfl
  simp only [computeOverall, computeOverallW, h, weightedSum, resolveW, jsRound, clampScore]
  norm_num

/-- Raw scores with all five dimensions inside [0,100]. -/
def inRange (r : RawScores) : Prop :=
  0 ≤ r.form ∧ r.form ≤ 100 ∧ 0 ≤ r.power ∧ r.power ≤ 100 ∧
    0 ≤ r.consistency ∧ r.consistency ≤ 100 ∧ 0 ≤ r.balance ∧ r.balance ≤ 100 ∧
    0 ≤ r.timing ∧ r.timing ≤ 100

/-! The nine insight messages of generateInsights, src/backend.js
lines 189-198. -/

def jointAlignmentMsg : String :=
  "Work on joint alignment — your form score indicates suboptimal positioning during key phases."

def powerMsg : String :=
  "Power output is below average for your sport. Add plyometric or resistance exercises."

def consistencyMsg : String :=
  "Movement variability is high. Focus on drilling the same technique repeatedly."

def balanceMsg : String :=
  "Centre of mass shifts detected. Single-leg balance work can help stabilise your base."

def timingMsg : String :=
  "Phase timing is off — practice slow-motion drills to reinforce the correct sequence."

def kneeBendMsg : String :=
  "Knee bend is excessive at key moment. Check your stance width and foot placement."

def kneeStraightMsg : String :=
  "Legs too straight — increase knee flexion for better shock absorption."

def excellentFormMsg (sportName : String) : String :=
  "Excellent " ++ sportName ++ " form! Maintain this technique under fatigue."

def consistencyPraiseMsg : String :=
  "Highly consistent movement patterns — great for competition repeatability."

/-- generateInsights, src/backend.js lines 186-201: start from an empty
array, conditionally push each message in the fixed source order, then
slice(0, 5). -/
def generateInsights (scores : RawScores) (metrics : Metrics) (sportName : String) :
    List String :=
  let insights : List String := []
  let insights := if scores.form < 65 then insights ++ [jointAlignmentMsg] else insights
  let insights := if scores.power < 65 then insights ++ [powerMsg] else insights
  let insights := if scores.consistency < 65 then insights ++ [consistencyMsg] else insights
  let insights := if scores.balance < 65 then insights ++ [balanceMsg] else insights
  let insights := if scores.timing < 65 then insights ++ [timingMsg] else insights
  let insights := if metrics.kneeAngle < 80 then insights ++ [kneeBendMsg] else insights
  let insights := if metrics.kneeAngle > 160 then insights ++ [kneeStraightMsg] else insights
  let insights := if scores.form ≥ 80 then insights ++ [excellentFormMsg sportName] else insights
  let insights := if scores.consistency ≥ 80 then insights ++ [consistencyPraiseMsg] else insights
  insights.take 5

/-- The nine threshold rules as data, in the evaluation order of the
source: condition paired with the message it would append. -/
def insightRules (scores : RawScores) (metrics : Metrics) (sportName : String) :
    List (Bool × String) := [
  (decide (scores.form < 65), jointAlignmentMsg),
  (decide (scores.power < 65), powerMsg),
  (decide (scores.consistency < 65), consistencyMsg),
  (decide (scores.balance < 65), balanceMsg),
  (decide (scores.timing < 65), timingMsg),
  (decide (metrics.kneeAngle < 80), kneeBendMsg),
  (decide (metrics.kneeAngle > 160), kneeStraightMsg),
  (decide (scores.form ≥ 80), excellentFormMsg sportName),
  (decide (scores.consistency ≥ 80), consistencyPraiseMsg)]

/-- Messages of the rules that fire, in evaluation order, before
truncation. -/
def firedMessages (scores : RawScores) (metrics : Metrics) (sportName : String) :
    List String :=
  ((insightRules scores metrics sportName).filter (fun e => e.1)).map (fun e => e.2)

lemma filterMap_rule_cons (c : Bool) (msg : String) (rest : List (Bool × String)) :
    (((c, msg) :: rest).filter (fun e => e.1)).map (fun e => e.2) =
      (if c = true then [msg] else []) ++ ((rest.filter (fun e => e.1)).map (fun e => e.2)) := by
  cases c <;> simp [List.filter]

lemma ite_append_singleton {c : Prop} [Decidable c] (l : List String) (msg : String) :
    (if c then l ++ [msg] else l) = l ++ (if c then [msg] else []) := by
  split <;> simp

/-- The imperative push loop equals the declarative filter of the rule
table, truncated to 5. -/
lemma generateInsights_eq_fired (s : RawScores) (m : Metrics) (n : String) :
    generateInsights s m n = (firedMessages s m n).take 5 := by
  simp only [generateInsights, ite_append_singleton, List.nil_append]
  simp only [firedMessages, insightRules, filterMap_rule_cons, decide_eq_true_eq,
    List.filter_nil, List.map_nil, List.append_nil, List.nil_append, List.append_assoc]

lemma mem_cond_singleton {c : Prop} [Decidable c] {x msg : String} :
    x ∈ (if c then [msg] else []) ↔ c ∧ x = msg := by
  split <;> simp_all

/-- Any message of the pre-truncation list comes from one of the nine
rules, whose condition then holds. -/
lemma mem_firedMessages {x : String} {s : RawScores} {m : Metrics} {n : String}
    (h : x ∈ firedMessages s m n) :
    (s.form < 65 ∧ x = jointAlignmentMsg) ∨ (s.power < 65 ∧ x = powerMsg) ∨
      (s.consistency < 65 ∧ x = consistencyMsg) ∨ (s.balance < 65 ∧ x = balanceMsg) ∨
      (s.timing < 65 ∧ x = timingMsg) ∨ (m.kneeAngle < 80 ∧ x = kneeBendMsg) ∨
      (m.kneeAngle > 160 ∧ x = kneeStraightMsg) ∨ (s.form ≥ 80 ∧ x = excellentFormMsg n) ∨
      (s.consistency ≥ 80 ∧ x = consistencyPraiseMsg) := by
  simp only [firedMessages, insightRules, filterMap_rule_cons, decide_eq_true_eq,
    List.filter_nil, List.map_nil, List.append_nil, List.mem_append,
    mem_cond_singleton] at h
  exact h

lemma mem_fired_of_mem_generateInsights {x : String} {s : RawScores} {m : Metrics}
    {n : String} (h : x ∈ generateInsights s m n) : x ∈ firedMessages s m n := by
  rw [generateInsights_eq_fired] at h
  exact List.take_subset _ _ h

lemma excellentFormMsg_head (n : String) : (excellentFormMsg n).data.head? = some 'E' := by
  obtain ⟨l⟩ := n
  rfl

lemma ne_excellentFormMsg {x : String} (hx : x.data.head? ≠ some 'E') (n : String) :
    x ≠ excellentFormMsg n := by
  intro h
  rw [h] at hx
  exact hx (excellentFormMsg_head n)

lemma fired_jointAlignment {s : RawScores} {m : Metrics} {n : String}
    (h : jointAlignmentMsg ∈ firedMessages s m n) : s.form < 65 := by
  rcases mem_firedMessages h with ⟨hc, he⟩|⟨hc, he⟩|⟨hc, he⟩|⟨hc, he⟩|⟨hc, he⟩|⟨hc, he⟩|⟨hc, he⟩|⟨hc, he⟩|⟨hc, he⟩
  all_goals first
    | exact hc
    | exact absurd he (by decide)
    | exact absurd he (ne_excellentFormMsg (by decide) n)

lemma fired_excellentForm {s : RawScores} {m : Metrics} {n : String}
    (h : excellentFormMsg n ∈ firedMessages s m n) : 80 ≤ s.form := by
  rcases mem_firedMessages h with ⟨hc, he⟩|⟨hc, he⟩|⟨hc, he⟩|⟨hc, he⟩|⟨hc, he⟩|⟨hc, he⟩|⟨hc, he⟩|⟨hc, he⟩|⟨hc, he⟩
  all_goals first
    | exact hc
    | exact absurd he.symm (ne_excellentFormMsg (by decide) n)

lemma fired_consistencyCue {s : RawScores} {m : Metrics} {n : String}
    (h : consistencyMsg ∈ firedMessages s m n) : s.consistency < 65 := by
  rcases mem_firedMessages h with ⟨hc, he⟩|⟨hc, he⟩|⟨hc, he⟩|⟨hc, he⟩|⟨hc, he⟩|⟨hc, he⟩|⟨hc, he⟩|⟨hc, he⟩|⟨hc, he⟩
  all_goals first
    | exact hc
    | exact absurd he (by decide)
    | exact absurd he (ne_excellentFormMsg (by decide) n)

lemma fired_consistencyPraise {s : RawScores} {m : Metrics} {n : String}
    (h : consistencyPraiseMsg ∈ firedMessages s m n) : 80 ≤ s.consistency := by
  rcases mem_firedMessages h with ⟨hc, he⟩|⟨hc, he⟩|⟨hc, he⟩|⟨hc, he⟩|⟨hc, he⟩|⟨hc, he⟩|⟨hc, he⟩|⟨hc, he⟩|⟨hc, he⟩
  all_goals first
    | exact hc
    | exact absurd he (by decide)
    | exact absurd he (ne_excellentFormMsg (by decide) n)

/-! Persistence layer: sessions table, athletes table, and the two
routes whose behaviour the specification constrains.  SQLite timestamps
are modelled as naturals (ISO text timestamps compare chronologically),
and a fallible INSERT as an Except-valued function. -/

/-- One row of the sessions table (src/backend.js lines 77-88). -/
structure SessionRow where
  id : String
  athlete_id : Option String
  sport : String
  overall : ℤ
  scores : RawScores
  metrics : Metrics
  insights : List String
  file_path : Option String
  frame_count : ℕ
  created_at : ℕ

/-- The object returned by analyzeVideo (src/backend.js lines 175-183). -/
structure AnalysisResult where
  sport : String
  sportKey : String
  overall : ℤ
  scores : RawScores
  metrics : Metrics
  insights : List String
  frameCount : ℕ

/-- An HTTP JSON response of the analyze route: res.json sends status
200 with the sessionId spread together with the result fields. -/
structure ApiResponse where
  status : ℕ
  sessionId : String
  result : AnalysisResult

def SessionsDb : Type := List SessionRow

/-- The POST /api/analyze handler (src/backend.js lines 247-278) after
the result has been computed: best-effort INSERT inside try/catch, a
failure is only logged and the caught state keeps the old db; the
response is res.json of sessionId plus the result either way. -/
def analyzeRoute (db : Option SessionsDb)
    (insertSession : SessionsDb → SessionRow → Except String SessionsDb)
    (result : AnalysisResult) (sessionId : String)
    (athleteId : Option String) (filePath : Option String) (now : ℕ) :
    ApiResponse × Option SessionsDb :=
  let row : SessionRow :=
    ⟨sessionId, athleteId, result.sport, result.overall, result.scores,
      result.metrics, result.insights, filePath, result.frameCount, now⟩
  let db2 : Option SessionsDb :=
    match db with
    | none => none
    | some d =>
      match insertSession d row with
      | Except.ok d2 => some d2
      | Except.error _ => some d
  (⟨200, sessionId, result⟩, db2)

/-- ORDER BY created_at DESC: a row precedes another when its creation
time is at least as late. -/
def byNewest (a b : SessionRow) : Prop := b.created_at ≤ a.created_at

instance : DecidableRel byNewest := fun a b => Nat.decLe b.created_at a.created_at

instance : IsTotal SessionRow byNewest := ⟨fun a b => Nat.le_total b.created_at a.created_at⟩

instance : IsTrans SessionRow byNewest := ⟨fun _ _ _ h1 h2 => le_trans h2 h1⟩

/-- The GET /api/sessions handler (src/backend.js lines 288-294):
optional WHERE athlete_id = ?, ORDER BY created_at DESC, LIMIT ?. -/
def sessionsRoute (rows : List SessionRow) (athleteId : Option String) (limit : ℕ) :
    List SessionRow :=
  let filtered : List SessionRow := match athleteId with
    | some a => rows.filter (fun r => r.athlete_id == some a)
    | none => rows
  (filtered.insertionSort byNewest).take limit

/-- One row of the athletes table (src/backend.js lines 65-75). -/
structure AthleteRow where
  name : String
  age : Option ℤ
  height_cm : Option ℚ
  weight_kg : Option ℚ
  sport : Option String
  level : Option String
  created_at : ℕ
  updated_at : ℕ

/-- The JSON body of POST /api/profile; absent fields are none. -/
structure ProfileReq where
  name : String
  age : Option ℤ
  height : Option ℚ
  weight : Option ℚ
  sport : Option String
  level : Option String
  id : Option String

def ProfilesDb : Type := String → Option AthleteRow

/-- JS `v || null` on a numeric field: missing and 0 (falsy) both
become null. -/
def intOrNull (o : Option ℤ) : Option ℤ :=
  match o with
  | some v => if v = 0 then none else some v
  | none => none

/-- JS `v || null` on a numeric field holding a decimal. -/
def ratOrNull (o : Option ℚ) : Option ℚ :=
  match o with
  | some v => if v = 0 then none else some v
  | none => none

/-- JS `v || null` on a string field: missing and the empty string
(falsy) both become null. -/
def strOrNull (o : Option String) : Option String :=
  match o with
  | some v => if v = "" then none else some v
  | none => none

/-- Writing one row into the athletes table under a key. -/
def storeInsert (store : ProfilesDb) (id : String) (row : AthleteRow) : ProfilesDb :=
  fun k => if k = id then some row else store k

/-- The POST /api/profile handler (src/backend.js lines 297-316):
reject a falsy name, take the given id or a fresh one, then
INSERT .. ON CONFLICT(id) DO UPDATE SET which overwrites every column
except created_at and refreshes updated_at. -/
def profileUpsert (store : ProfilesDb) (req : ProfileReq) (newId : String) (now : ℕ) :
    Except String (String × ProfilesDb) :=
  if req.name = "" then Except.error "name is required."
  else
    let athleteId := match req.id with
      | some i => if i = "" then newId else i
      | none => newId
    let row : AthleteRow := match store athleteId with
      | none =>
        ⟨req.name, intOrNull req.age, ratOrNull req.height, ratOrNull req.weight,
          strOrNull req.sport, strOrNull req.level, now, now⟩
      | some old =>
        ⟨req.name, intOrNull req.age, ratOrNull req.height, ratOrNull req.weight,
          strOrNull req.sport, strOrNull req.level, old.created_at, now⟩
    Except.ok (athleteId, storeInsert store athleteId row)

/-! Registry facts shared by the scoring theorems. -/

lemma lookupPattern_mem (k : String) : lookupPattern k ∈ SPORT_PATTERNS.map Prod.snd := by
  unfold lookupPattern
  cases h : SPORT_PATTERNS.find? (fun e => e.1 == k) with
  | none => simp [SPORT_PATTERNS]
  | some e => exact List.mem_map_of_mem Prod.snd (List.mem_of_find?_eq_some h)

/-- On every registry entry (all weights present and nonzero) the
JS falsy-or resolution agrees with the plain default-to-0.2 lookup the
specification describes. -/
lemma registry_resolveW : ∀ p ∈ SPORT_PATTERNS.map Prod.snd,
    resolveW p.weights.form = specWeight p.weights.form ∧
      resolveW p.weights.power = specWeight p.weights.power ∧
      resolveW p.weights.consistency = specWeight p.weights.consistency ∧
      resolveW p.weights.balance = specWeight p.weights.balance ∧
      resolveW p.weights.timing = specWeight p.weights.timing := by
  intro p hp
  simp only [SPORT_PATTERNS, runningPattern, List.map_cons, List.map_nil,
    List.mem_cons, List.not_mem_nil, or_false] at hp
  rcases hp with h|h|h|h|h|h|h|h|h|h|h|h <;> subst h <;>
    refine ⟨?_, ?_, ?_, ?_, ?_⟩ <;> norm_num [resolveW, specWeight]

/-- C1: for every sportKey and raw scores in [0,100], the scoring path
computes overall as the rounding of the sum over the five dimensions of
raw score times resolved weight (a missing weight defaulting to 0.2),
clamped to [0,100] after rounding. -/
theorem overall_matches_spec_formula (sportKey : String) (r : RawScores)
    (h : inRange r) : computeOverall sportKey r = specOverall sportKey r := by
  obtain ⟨h1, h2, h3, h4, h5⟩ := registry_resolveW _ (lookupPattern_mem sportKey)
  simp only [computeOverall, computeOverallW, specOverall, weightedSum, h1, h2, h3, h4, h5]

theorem overall_matches_spec_formula_witness :
    inRange ⟨74, 68, 81, 72, 65⟩ ∧
      computeOverall "basketball" ⟨74, 68, 81, 72, 65⟩ =
        specOverall "basketball" ⟨74, 68, 81, 72, 65⟩ :=
  ⟨by norm_num [inRange],
    overall_matches_spec_formula "basketball" ⟨74, 68, 81, 72, 65⟩ (by norm_num [inRange])⟩

/-- C3: for every raw scores in [0,100] and every weight vector, even
one whose entries do not sum to 1, the overall value of the scoring
path is an integer (it lives in ℤ) lying in the closed range [0,100]. -/
theorem overall_always_in_range (w : Weights) (r : RawScores) (h : inRange r) :
    0 ≤ computeOverallW w r ∧ computeOverallW w r ≤ 100 := by
  unfold computeOverallW clampScore
  omega

theorem overall_always_in_range_witness :
    inRange ⟨100, 100, 100, 100, 100⟩ ∧
      (0 ≤ computeOverallW ⟨some 0.3, some 0.3, some 0.3, some 0.3, some 0.3⟩
          ⟨100, 100, 100, 100, 100⟩ ∧
        computeOverallW ⟨some 0.3, some 0.3, some 0.3, some 0.3, some 0.3⟩
          ⟨100, 100, 100, 100, 100⟩ ≤ 100) :=
  ⟨by norm_num [inRange],
    overall_always_in_range ⟨some 0.3, some 0.3, some 0.3, some 0.3, some 0.3⟩
      ⟨100, 100, 100, 100, 100⟩ (by norm_num [inRange])⟩

/-- C5: the registry has twelve entries and in each one the five weight
values are non-negative and sum exactly to 1 (hence within any small
tolerance of 1.0). -/
theorem registry_weights_invariant :
    SPORT_PATTERNS.length = 12 ∧
      ∀ p ∈ SPORT_PATTERNS.map Prod.snd,
        ∃ wf wp wc wb wt : ℚ,
          p.weights = ⟨some wf, some wp, some wc, some wb, some wt⟩ ∧
            0 ≤ wf ∧ 0 ≤ wp ∧ 0 ≤ wc ∧ 0 ≤ wb ∧ 0 ≤ wt ∧
            wf + wp + wc + wb + wt = 1 := by
  refine ⟨rfl, ?_⟩
  intro p hp
  simp only [SPORT_PATTERNS, runningPattern, List.map_cons, List.map_nil,
    List.mem_cons, List.not_mem_nil, or_false] at hp
  rcases hp with h|h|h|h|h|h|h|h|h|h|h|h <;> subst h <;>
    exact ⟨_, _, _, _, _, rfl, by norm_num⟩

theorem registry_weights_invariant_witness :
    ∃ wf wp wc wb wt : ℚ,
      runningPattern.weights = ⟨some wf, some wp, some wc, some wb, some wt⟩ ∧
        0 ≤ wf ∧ 0 ≤ wp ∧ 0 ≤ wc ∧ 0 ≤ wb ∧ 0 ≤ wt ∧
        wf + wp + wc + wb + wt = 1 :=
  registry_weights_invariant.2 runningPattern (by simp [SPORT_PATTERNS])

/-- C6: a sport key absent from the registry resolves to the
distance-running default entry, weights and display name alike; the
lookup is a total function, so no unknown key can fail. -/
theorem unknown_sport_defaults_to_running (k : String)
    (h : ∀ e ∈ SPORT_PATTERNS, e.1 ≠ k) : lookupPattern k = runningPattern := by
  unfold lookupPattern
  cases hf : SPORT_PATTERNS.find? (fun e => e.1 == k) with
  | none => rfl
  | some e =>
    exfalso
    exact h e (List.mem_of_find?_eq_some hf) (by simpa using List.find?_some hf)

theorem unknown_sport_defaults_to_running_witness :
    lookupPattern "badminton" = runningPattern :=
  unknown_sport_defaults_to_running "badminton" (by decide)

/-- C2: generateInsights evaluates the nine rules in their fixed order,
each independently appending its message, and returns the first 5
messages produced; hence the result has length at most 5 and is empty
when no rule fires. -/
theorem generateInsights_rule_spec (s : RawScores) (m : Metrics) (n : String) :
    generateInsights s m n = (firedMessages s m n).take 5 ∧
      (generateInsights s m n).length ≤ 5 ∧
      (firedMessages s m n = [] → generateInsights s m n = []) := by
  refine ⟨generateInsights_eq_fired s m n, ?_, ?_⟩
  · rw [generateInsights_eq_fired]
    exact List.length_take_le 5 _
  · intro h
    rw [generateInsights_eq_fired, h]
    rfl

theorem generateInsights_rule_spec_witness :
    generateInsights ⟨70, 70, 70, 70, 70⟩ ⟨100, 170, 90, "2.5", 70⟩ "Yoga" = [] :=
  (generateInsights_rule_spec ⟨70, 70, 70, 70, 70⟩ ⟨100, 170, 90, "2.5", 70⟩ "Yoga").2.2
    (by norm_num [firedMessages, insightRules, filterMap_rule_cons, decide_eq_true_eq])

/-- Raw scores that make all five low-score rules fire. -/
def cexLowScores : RawScores := ⟨0, 0, 0, 0, 0⟩

/-- Metrics with a knee angle of 70 degrees. -/
def cexKneeMetrics : Metrics := ⟨70, 160, 90, "2.0", 70⟩

/-- C4 counterexample: with kneeAngle = 70 but all five low-score rules
firing first, the knee-bend warning is the sixth message produced and is
cut off by slice(0, 5), so the returned list does not contain it. -/
theorem kneeBend_truncated_counterexample :
    cexKneeMetrics.kneeAngle = 70 ∧
      kneeBendMsg ∉ generateInsights cexLowScores cexKneeMetrics "Sprinting" := by
  refine ⟨rfl, ?_⟩
  have h : generateInsights cexLowScores cexKneeMetrics "Sprinting" =
      [jointAlignmentMsg, powerMsg, consistencyMsg, balanceMsg, timingMsg] := by
    norm_num [generateInsights, cexLowScores, cexKneeMetrics]
  rw [h]
  decide

/-- How many of the five low-score rules fire on the given scores. -/
def lowFiredCount (s : RawScores) : ℕ :=
  (if s.form < 65 then 1 else 0) + (if s.power < 65 then 1 else 0) +
    (if s.consistency < 65 then 1 else 0) + (if s.balance < 65 then 1 else 0) +
    (if s.timing < 65 then 1 else 0)

lemma length_cond_singleton {c : Prop} [Decidable c] (msg : String) :
    (if c then [msg] else ([] : List String)).length = if c then 1 else 0 := by
  split <;> rfl

lemma mem_take_of_prefix_small (A B : List String) (x : String) (hA : A.length ≤ 4) :
    x ∈ (A ++ x :: B).take 5 := by
  rw [List.take_append_eq_append_take, List.take_of_length_le (by omega)]
  have h2 : 5 - A.length = (4 - A.length) + 1 := by omega
  rw [h2, List.take_succ_cons]
  exact List.mem_append_right _ (List.mem_cons_self _ _)

lemma mem_take_five_chain (a1 a2 a3 a4 a5 B : List String) (x : String)
    (h : a1.length + a2.length + a3.length + a4.length + a5.length ≤ 4) :
    x ∈ (a1 ++ (a2 ++ (a3 ++ (a4 ++ (a5 ++ (x :: B)))))).take 5 := by
  have hm := mem_take_of_prefix_small (a1 ++ a2 ++ a3 ++ a4 ++ a5) B x
    (by simp only [List.length_append]; omega)
  simpa [List.append_assoc] using hm

/-- C4 amended: with kneeAngle = 70, the knee-bend warning is returned
provided at most four of the five preceding low-score rules fire (when
all five fire, the warning is truncated away by slice(0, 5)). -/
theorem kneeBend_warning_amended (s : RawScores) (m : Metrics) (n : String)
    (h70 : m.kneeAngle = 70) (hc : lowFiredCount s ≤ 4) :
    kneeBendMsg ∈ generateInsights s m n := by
  rw [generateInsights_eq_fired]
  simp only [firedMessages, insightRules, filterMap_rule_cons, decide_eq_true_eq,
    List.filter_nil, List.map_nil, List.append_nil, List.singleton_append]
  rw [h70, if_pos (show (70 : ℚ) < 80 by norm_num)]
  refine mem_take_five_chain _ _ _ _ _ _ kneeBendMsg ?_
  simp only [length_cond_singleton]
  unfold lowFiredCount at hc
  exact hc

theorem kneeBend_warning_amended_witness :
    kneeBendMsg ∈ generateInsights ⟨90, 90, 90, 90, 90⟩ ⟨70, 150, 90, "3.0", 80⟩ "Golf Swing" :=
  kneeBend_warning_amended ⟨90, 90, 90, 90, 90⟩ ⟨70, 150, 90, "3.0", 80⟩ "Golf Swing" rfl
    (by norm_num [lowFiredCount])

/-- C10: the low-score coaching cue and the high-score praise for the
same dimension never co-occur in one insight list: the form pair
(form < 65 versus form ≥ 80) and the consistency pair (consistency < 65
versus consistency ≥ 80) are mutually exclusive. -/
theorem no_conflicting_dimension_cues (s : RawScores) (m : Metrics) (n : String) :
    ¬(jointAlignmentMsg ∈ generateInsights s m n ∧
        excellentFormMsg n ∈ generateInsights s m n) ∧
      ¬(consistencyMsg ∈ generateInsights s m n ∧
        consistencyPraiseMsg ∈ generateInsights s m n) := by
  constructor
  · rintro ⟨h1, h2⟩
    have g1 := fired_jointAlignment (mem_fired_of_mem_generateInsights h1)
    have g2 := fired_excellentForm (mem_fired_of_mem_generateInsights h2)
    linarith
  · rintro ⟨h1, h2⟩
    have g1 := fired_consistencyCue (mem_fired_of_mem_generateInsights h1)
    have g2 := fired_consistencyPraise (mem_fired_of_mem_generateInsights h2)
    linarith

theorem no_conflicting_dimension_cues_witness :
    ¬(jointAlignmentMsg ∈ generateInsights ⟨90, 90, 90, 90, 90⟩ ⟨100, 170, 90, "2.0", 80⟩ "Yoga" ∧
        excellentFormMsg "Yoga" ∈
          generateInsights ⟨90, 90, 90, 90, 90⟩ ⟨100, 170, 90, "2.0", 80⟩ "Yoga") :=
  (no_conflicting_dimension_cues ⟨90, 90, 90, 90, 90⟩ ⟨100, 170, 90, "2.0", 80⟩ "Yoga").1

/-- C7: the analyze handler sends status 200 with the session id and
the computed result unchanged, whatever the database state and whatever
the INSERT does — success and caught failure produce the same
response. -/
theorem analyze_response_unaffected_by_insert_failure
    (db : Option SessionsDb)
    (insertSession : SessionsDb → SessionRow → Except String SessionsDb)
    (result : AnalysisResult) (sessionId : String) (athleteId : Option String)
    (filePath : Option String) (now : ℕ) :
    (analyzeRoute db insertSession result sessionId athleteId filePath now).1 =
      ⟨200, sessionId, result⟩ :=
  rfl

lemma profileUpsert_create (store : ProfilesDb) (req : ProfileReq) (newId : String)
    (now : ℕ) (id : String) (hname : req.name ≠ "") (hid : req.id = some id)
    (hidne : id ≠ "") (hnew : store id = none) :
    profileUpsert store req newId now =
      Except.ok (id, storeInsert store id
        ⟨req.name, intOrNull req.age, ratOrNull req.height, ratOrNull req.weight,
          strOrNull req.sport, strOrNull req.level, now, now⟩) := by
  simp only [profileUpsert, hid, if_neg hname, if_neg hidne, hnew]

lemma profileUpsert_update (store : ProfilesDb) (req : ProfileReq) (newId : String)
    (now : ℕ) (id : String) (old : AthleteRow) (hname : req.name ≠ "")
    (hid : req.id = some id) (hidne : id ≠ "") (hold : store id = some old) :
    profileUpsert store req newId now =
      Except.ok (id, storeInsert store id
        ⟨req.name, intOrNull req.age, ratOrNull req.height, ratOrNull req.weight,
          strOrNull req.sport, strOrNull req.level, old.created_at, now⟩) := by
  simp only [profileUpsert, hid, if_neg hname, if_neg hidne, hold]

/-- C8 amended: a first upsert creating the profile and a second upsert
with the same id yields the second call's fields stored through the JS
falsy coalescing (so the new age is stored whenever it is nonzero, and
omitted optional fields are stored as null), with createdAt kept from
the first call and updatedAt refreshed by the second. -/
theorem profile_upsert_update_semantics (store0 : ProfilesDb) (req1 req2 : ProfileReq)
    (id nid1 nid2 : String) (t1 t2 : ℕ) (a2 : ℤ)
    (h0 : store0 id = none) (hid1 : req1.id = some id) (hid2 : req2.id = some id)
    (hidne : id ≠ "") (hn1 : req1.name ≠ "") (hn2 : req2.name ≠ "")
    (ha2 : req2.age = some a2) (ha2nz : a2 ≠ 0) :
    ∃ store1 store2 : ProfilesDb,
      profileUpsert store0 req1 nid1 t1 = Except.ok (id, store1) ∧
        profileUpsert store1 req2 nid2 t2 = Except.ok (id, store2) ∧
        store2 id = some ⟨req2.name, some a2, ratOrNull req2.height, ratOrNull req2.weight,
          strOrNull req2.sport, strOrNull req2.level, t1, t2⟩ := by
  have h1 := profileUpsert_create store0 req1 nid1 t1 id hn1 hid1 hidne h0
  have hmid : storeInsert store0 id
      ⟨req1.name, intOrNull req1.age, ratOrNull req1.height, ratOrNull req1.weight,
        strOrNull req1.sport, strOrNull req1.level, t1, t1⟩ id =
      some ⟨req1.name, intOrNull req1.age, ratOrNull req1.height, ratOrNull req1.weight,
        strOrNull req1.sport, strOrNull req1.level, t1, t1⟩ := by
    simp [storeInsert]
  have h2 := profileUpsert_update _ req2 nid2 t2 id _ hn2 hid2 hidne hmid
  refine ⟨_, _, h1, h2, ?_⟩
  simp only [storeInsert, eq_self_iff_true, ite_true, ha2, intOrNull, if_neg ha2nz]

theorem profile_upsert_update_semantics_witness :
    ∃ store1 store2 : ProfilesDb,
      profileUpsert (fun _ => none) ⟨"Alex", some 25, none, none, none, none, some "ath9"⟩
          "n1" 10 = Except.ok ("ath9", store1) ∧
        profileUpsert store1 ⟨"Alex", some 30, none, none, none, none, some "ath9"⟩
          "n2" 11 = Except.ok ("ath9", store2) ∧
        store2 "ath9" = some ⟨"Alex", some 30, ratOrNull none, ratOrNull none,
          strOrNull none, strOrNull none, 10, 11⟩ :=
  profile_upsert_update_semantics (fun _ => none)
    ⟨"Alex", some 25, none, none, none, none, some "ath9"⟩
    ⟨"Alex", some 30, none, none, none, none, some "ath9"⟩
    "ath9" "n1" "n2" 10 11 30 rfl rfl rfl (by decide) (by decide) (by decide) rfl
    (by decide)

/-- A request body whose age is 25. -/
def cexProfileReq1 : ProfileReq := ⟨"Alex", some 25, none, none, none, none, some "ath1"⟩

/-- The same request body resubmitted with age 0. -/
def cexProfileReq2 : ProfileReq := ⟨"Alex", some 0, none, none, none, none, some "ath1"⟩

/-- The store after the two upserts of the counterexample. -/
def cexProfileStores : Option ProfilesDb :=
  match profileUpsert (fun _ => none) cexProfileReq1 "n1" 10 with
  | Except.ok p1 =>
    match profileUpsert p1.2 cexProfileReq2 "n2" 11 with
    | Except.ok p2 => some p2.2
    | Except.error _ => none
  | Except.error _ => none

/-- C8 counterexample: the second call provides age 0, a different age
than the stored 25, yet the stored profile's age becomes null rather
than the provided value, because of the JS `age || null` coalescing. -/
theorem profile_upsert_zero_age_counterexample :
    cexProfileReq2.age = some 0 ∧
      (cexProfileStores.bind (fun s => s "ath1")).map AthleteRow.age = some none ∧
      (cexProfileStores.bind (fun s => s "ath1")).map AthleteRow.age ≠ some (some 0) := by
  refine ⟨rfl, ?_, ?_⟩ <;> decide

/-- C9 amended: the session list returns at most limit rows, ordered by
creation time non-increasing (newest first; rows sharing a creation
time make the order non-strict), and when an athleteId is supplied
every returned row's stored athlete reference equals it exactly. -/
theorem sessions_list_spec (rows : List SessionRow) (athleteId : Option String)
    (limit : ℕ) :
    (sessionsRoute rows athleteId limit).length ≤ limit ∧
      List.Sorted byNewest (sessionsRoute rows athleteId limit) ∧
      ∀ a, athleteId = some a →
        ∀ r ∈ sessionsRoute rows athleteId limit, r.athlete_id = some a := by
  refine ⟨List.length_take_le limit _, ?_, ?_⟩
  · exact List.Pairwise.sublist (List.take_sublist limit _)
      (List.sorted_insertionSort byNewest _)
  · intro a ha r hr
    subst ha
    simp only [sessionsRoute] at hr
    have h2 := (List.perm_insertionSort byNewest _).subset (List.take_subset _ _ hr)
    simpa using (List.mem_filter.mp h2).2

/-- A session row with the given id, athlete reference and creation
time; the analysis payload is fixed. -/
def mkSessionRow (i : String) (aid : Option String) (t : ℕ) : SessionRow :=
  ⟨i, aid, "Distance Running", 80, ⟨80, 80, 80, 80, 80⟩, ⟨100, 170, 90, "2.0", 80⟩,
    [], none, 200, t⟩

def cexAthleteRows : List SessionRow :=
  [mkSessionRow "w1" (some "x") 3, mkSessionRow "w2" (some "y") 4]

theorem sessions_list_spec_witness :
    (mkSessionRow "w1" (some "x") 3).athlete_id = some "x" :=
  (sessions_list_spec cexAthleteRows (some "x") 20).2.2 "x" rfl
    (mkSessionRow "w1" (some "x") 3)
    (by
      have h : sessionsRoute cexAthleteRows (some "x") 20 =
          [mkSessionRow "w1" (some "x") 3] := rfl
      rw [h]
      exact List.mem_cons_self _ _)

/-- Two sessions created in the same second. -/
def cexSameTimeRows : List SessionRow :=
  [mkSessionRow "s1" none 5, mkSessionRow "s2" none 5]

/-- C9 counterexample: with two stored sessions sharing a creation
time, the returned sequence is not strictly ordered by creation time
descending (ORDER BY created_at DESC only guarantees a non-strict
order). -/
theorem sessions_list_not_strictly_sorted_counterexample :
    ¬ List.Sorted (fun a b : SessionRow => b.created_at < a.created_at)
        (sessionsRoute cexSameTimeRows none 20) := by
  have h : sessionsRoute cexSameTimeRows none 20 =
      [mkSessionRow "s1" none 5, mkSessionRow "s2" none 5] := rfl
  rw [h]
  intro hs
  have hlt := List.rel_of_sorted_cons hs (mkSessionRow "s2" none 5)
    (List.mem_cons_self _ _)
  simp [mkSessionRow] at hlt

end SXA
